import Mathlib

/-
Verification of the `sharp` concurrency core: the future/promise shared
state machine (FutureImpl / Promise / Future) and the mutual-exclusion
wrapper (Concurrent / UniqueLockedProxy).

The repository ships the declaration headers (FutureImpl.hpp,
Concurrent.hpp) and the unit tests (Future/test/test.cpp,
LockedData/tests/LockedDataTests.cpp), but not the implementation files
(FutureImpl.ipp, Concurrent.ipp, Future.hpp, Promise.hpp).  The
operational definitions below are therefore modelled from the
specification and the contracts stated in the header doc comments,
keeping the names and the state layout of the headers.  The embedding is
sequential: each operation is a pure function from the shared state to
the new shared state, with failures returned through Except.
-/

namespace Sharp

/-- Error codes of the futures library, as enumerated in the failure
semantics table of the spec and matched by name in Future/test/test.cpp
(sharp::FutureErrorCode). -/
inductive FutureErrorCode where
  | broken_promise
  | future_already_retrieved
  | promise_already_satisfied
  | no_state
  deriving DecidableEq

/-- An exception value: either a typed future error (sharp::FutureError
carrying a FutureErrorCode) or a user exception (such as the
std::logic_error thrown inside continuations in the tests), identified
by a numeric payload. -/
inductive Exc where
  | futureError (code : FutureErrorCode)
  | logicError (payload : Nat)
  deriving DecidableEq

/-- The states of the shared state machine, named as in the FutureState
enum of FutureImpl.hpp: NotFulfilled (the spec calls it Empty),
ContainsValue, ContainsException.  The payload is carried in the state
itself, replacing the aligned_union storage of the header, which the
spec itself suggests modelling as a tagged variant. -/
inductive FutureState (α : Type) where
  | NotFulfilled
  | ContainsValue (v : α)
  | ContainsException (e : Exc)
  deriving DecidableEq

/-- The shared state of a future/promise pair (detail::FutureImpl of
FutureImpl.hpp): the retrieved one-shot flag and the tri-state payload.
The mutex/condition-variable pair of the header exists only for blocking
and is not part of the sequential embedding; the stored continuation
callback is modelled separately in ThenChain. -/
structure FutureImpl (α : Type) where
  retrieved : Bool
  state : FutureState α
  deriving DecidableEq

/-- A freshly created shared state: flag clear, state NotFulfilled. -/
def FutureImpl.init (α : Type) : FutureImpl α :=
  { retrieved := false, state := .NotFulfilled }

/-- Modelled from the spec: set_value stores the payload and transitions
NotFulfilled to ContainsValue; check_set_value fails with
promise_already_satisfied whenever the state is not Empty
(FutureImpl.ipp is not among the sources; FutureImpl.hpp declares
set_value and check_set_value, and the spec fixes their behavior). -/
def FutureImpl.set_value {α : Type} (s : FutureImpl α) (v : α) :
    Except FutureErrorCode (FutureImpl α) :=
  match s.state with
  | .NotFulfilled => .ok { s with state := .ContainsValue v }
  | .ContainsValue _ => .error .promise_already_satisfied
  | .ContainsException _ => .error .promise_already_satisfied

/-- Modelled from the spec: set_exception stores the exception token and
transitions NotFulfilled to ContainsException, failing with
promise_already_satisfied when the state is already terminal. -/
def FutureImpl.set_exception {α : Type} (s : FutureImpl α) (e : Exc) :
    Except FutureErrorCode (FutureImpl α) :=
  match s.state with
  | .NotFulfilled => .ok { s with state := .ContainsException e }
  | .ContainsValue _ => .error .promise_already_satisfied
  | .ContainsException _ => .error .promise_already_satisfied

/-- Modelled from the spec: the one-shot retrieval guard.  The header
doc of test_and_set_retrieved_flag states that the atomic flag is set,
and that if it had been set before, a future error with code
future_already_retrieved is thrown. -/
def FutureImpl.test_and_set_retrieved_flag {α : Type} (s : FutureImpl α) :
    Except FutureErrorCode (FutureImpl α) :=
  if s.retrieved then .error .future_already_retrieved
  else .ok { s with retrieved := true }

/-- Modelled from the spec: is_ready is the non-blocking snapshot of
state being not Empty. -/
def FutureImpl.is_ready {α : Type} (s : FutureImpl α) : Bool :=
  match s.state with
  | .NotFulfilled => false
  | _ => true

/-- One fulfillment request on the shared state: either a set_value or a
set_exception call, used to reason about arbitrary sequences of calls. -/
inductive SetOp (α : Type) where
  | value (v : α)
  | exc (e : Exc)
  deriving DecidableEq

/-- Dispatches one SetOp to the corresponding shared-state operation. -/
def FutureImpl.applySet {α : Type} (s : FutureImpl α) (op : SetOp α) :
    Except FutureErrorCode (FutureImpl α) :=
  match op with
  | .value v => s.set_value v
  | .exc e => s.set_exception e

/-- Runs a sequence of set_value/set_exception calls on the shared
state, recording each call's success or error; a failed call leaves the
state as it was. -/
def runSetOps {α : Type} (s : FutureImpl α) :
    List (SetOp α) → FutureImpl α × List (Except FutureErrorCode Unit)
  | [] => (s, [])
  | op :: ops =>
    match s.applySet op with
    | .ok s2 =>
      let r := runSetOps s2 ops
      (r.1, .ok () :: r.2)
    | .error c =>
      let r := runSetOps s ops
      (r.1, .error c :: r.2)

/-- The consumer facade (sharp::Future): an optional handle on a shared
state; a default-constructed, moved-from or consumed future holds
none. -/
structure Future (α : Type) where
  shared_state : Option (FutureImpl α)
  deriving DecidableEq

/-- Whether the future references a shared state, as reported by
Future::valid() in the FutureMove test. -/
def Future.valid {α : Type} (f : Future α) : Bool :=
  f.shared_state.isSome

/-- What a call to Future::get can do: return the stored value, throw an
exception (a stored exception or a FutureError such as no_state), or
block because the state is never fulfilled. -/
inductive GetOutcome (α : Type) where
  | ok (v : α)
  | threw (e : Exc)
  | blocks
  deriving DecidableEq

/-- What a call to Future::wait can do: return with the state terminal,
throw a FutureError, or block forever. -/
inductive WaitOutcome where
  | ready
  | blocks
  | failed (code : FutureErrorCode)
  deriving DecidableEq

/-- Modelled from the spec: get checks for a shared state (no_state
error otherwise), waits until the state is terminal, then moves the
value out or rethrows the stored exception; afterwards the shared state
is marked consumed, so the returned future holds none. -/
def Future.get {α : Type} (f : Future α) : GetOutcome α × Future α :=
  match f.shared_state with
  | none => (.threw (.futureError .no_state), f)
  | some impl =>
    match impl.state with
    | .NotFulfilled => (.blocks, f)
    | .ContainsValue v => (.ok v, ⟨none⟩)
    | .ContainsException e => (.threw e, ⟨none⟩)

/-- Modelled from the spec: wait checks for a shared state (no_state
error otherwise) and blocks until the state is terminal; it does not
consume. -/
def Future.wait {α : Type} (f : Future α) : WaitOutcome :=
  match f.shared_state with
  | none => .failed .no_state
  | some impl =>
    match impl.state with
    | .NotFulfilled => .blocks
    | _ => .ready

/-- Modelled from the spec: moving out of a future transfers the shared
state handle and leaves the source with none, as exercised by the
FutureMove test. -/
def Future.moveFrom {α : Type} (f : Future α) : Future α × Future α :=
  (⟨f.shared_state⟩, ⟨none⟩)

/-- Modelled from the spec: when a Promise is destroyed with its shared
state still Empty while a Future still references it, the destructor
forces the state to ContainsException carrying the broken_promise
condition; a promise whose state is already terminal is destroyed
without touching it. -/
def promiseDestroy {α : Type} (impl : FutureImpl α) : FutureImpl α :=
  match impl.state with
  | .NotFulfilled =>
    { impl with state := .ContainsException (.futureError .broken_promise) }
  | _ => impl

/-- Converts the result of running a continuation body (which may throw)
into the state it forwards into the continuation's promise: a returned
value becomes ContainsValue, a thrown exception becomes
ContainsException. -/
def contForward {α β : Type} (f : Future α → Except Exc β)
    (impl : FutureImpl α) : FutureState β :=
  match f ⟨some impl⟩ with
  | .ok v => .ContainsValue v
  | .error e => .ContainsException e

/-- Reads the result of a continuation body as the get outcome it should
produce on the chained future: a returned value is returned, a thrown
exception is rethrown. -/
def outcomeOfExcept {β : Type} : Except Exc β → GetOutcome β
  | .ok w => .ok w
  | .error e => .threw e

/-- The pair of shared states linked by Future::then — the base shared
state and the continuation's shared state — together with the stored
callback of FutureImpl.hpp (modelled as the pending closure, present
exactly while the base state is NotFulfilled and a continuation has been
registered but not yet run). -/
structure ThenChain (α β : Type) where
  base : FutureImpl α
  contState : FutureState β
  callback : Option (FutureImpl α → FutureState β)

/-- Modelled from the spec: Future::then creates the continuation
shared-state pair and calls add_callback on the base state; a future
without a shared state fails with no_state, a base state already
terminal runs the continuation immediately and inline, and otherwise the
closure is stored to be run by the fulfilling call. -/
def thenRegister {α β : Type} (fut : Future α)
    (f : Future α → Except Exc β) :
    Except FutureErrorCode (ThenChain α β) :=
  match fut.shared_state with
  | none => .error .no_state
  | some impl =>
    match impl.state with
    | .NotFulfilled =>
      .ok { base := impl, contState := .NotFulfilled,
            callback := some (contForward f) }
    | _ =>
      .ok { base := impl, contState := contForward f impl,
            callback := none }

/-- Modelled from the spec: set_value on the base state of a then-chain
stores the payload and transitions the state as usual, then invokes the
stored continuation synchronously on the calling thread, forwarding its
result or exception into the continuation's shared state. -/
def ThenChain.set_value {α β : Type} (t : ThenChain α β) (v : α) :
    Except FutureErrorCode (ThenChain α β) :=
  match t.base.state with
  | .NotFulfilled =>
    let newBase : FutureImpl α :=
      { t.base with state := .ContainsValue v }
    match t.callback with
    | some cb =>
      .ok { base := newBase, contState := cb newBase, callback := none }
    | none =>
      .ok { base := newBase, contState := t.contState, callback := none }
  | _ => .error .promise_already_satisfied

/-- The future returned by Future::then, viewing the continuation's
shared state (its retrieved flag is set at creation, since then itself
hands out the one future). -/
def ThenChain.chainedFuture {α β : Type} (t : ThenChain α β) : Future β :=
  ⟨some { retrieved := true, state := t.contState }⟩

/-- The shared states involved in unwrap-constructing a Future from a
Future of Future: the outer shared state (whose payload records whether
the inner future stored into it is valid, i.e. references the inner
shared state), the single inner shared state of the scenario, the flat
future's shared state, and the flag recording that the unwrap callback
is registered on the inner state and awaiting its fulfillment. -/
structure UnwrapWorld (α : Type) where
  outer : FutureState Bool
  inner : FutureState α
  flat : FutureState α
  waitingInner : Bool
  deriving DecidableEq

/-- Modelled from the spec: once the outer future has yielded an inner
future, the unwrap logic inspects it — a valid inner future gets a
callback registered on its shared state (run immediately and inline if
that state is already terminal), while an invalid inner future breaks
the flat future with broken_promise, as in the
UnwrapConstructOtherContainsInvalid test. -/
def unwrapProcessInner {α : Type} (w : UnwrapWorld α) (innerValid : Bool) :
    UnwrapWorld α :=
  if innerValid then
    match w.inner with
    | .NotFulfilled => { w with waitingInner := true }
    | st => { w with flat := st }
  else
    { w with flat := .ContainsException (.futureError .broken_promise) }

/-- Modelled from the spec: the unwrap callback on the outer shared
state — nothing happens while the outer state is Empty; an exception in
the outer state is forwarded to the flat future; a value (an inner
future) is handed to the inner-future logic. -/
def unwrapProcessOuter {α : Type} (w : UnwrapWorld α) : UnwrapWorld α :=
  match w.outer with
  | .NotFulfilled => w
  | .ContainsException e => { w with flat := .ContainsException e }
  | .ContainsValue innerValid => unwrapProcessInner w innerValid

/-- Modelled from the spec: constructing a Future of type T from a
Future of Future of T — an outer future with no shared state fails
immediately with no_state (UnwrapConstructOtherInvalid test), otherwise
the flat shared state starts Empty and the unwrap callback is registered
on the outer state, firing at once if the outer state is already
terminal. -/
def unwrapConstruct {α : Type} (outerValid : Bool)
    (outerSt : FutureState Bool) (innerSt : FutureState α) :
    Except FutureErrorCode (UnwrapWorld α) :=
  if outerValid then
    .ok (unwrapProcessOuter
      { outer := outerSt, inner := innerSt, flat := .NotFulfilled,
        waitingInner := false })
  else .error .no_state

/-- Modelled from the spec: fulfilling the outer promise with an inner
future (valid or not) transitions the outer state and runs the
registered unwrap callback inline. -/
def UnwrapWorld.setOuter {α : Type} (w : UnwrapWorld α)
    (innerValid : Bool) : Except FutureErrorCode (UnwrapWorld α) :=
  match w.outer with
  | .NotFulfilled =>
    .ok (unwrapProcessOuter { w with outer := .ContainsValue innerValid })
  | _ => .error .promise_already_satisfied

/-- Modelled from the spec: fulfilling the inner promise with a value
transitions the inner state; if the unwrap callback is waiting on it,
the value is forwarded inline into the flat future's shared state. -/
def UnwrapWorld.setInner {α : Type} (w : UnwrapWorld α) (x : α) :
    Except FutureErrorCode (UnwrapWorld α) :=
  match w.inner with
  | .NotFulfilled =>
    if w.waitingInner then
      .ok { w with inner := .ContainsValue x,
                   flat := .ContainsValue x, waitingInner := false }
    else
      .ok { w with inner := .ContainsValue x }
  | _ => .error .promise_already_satisfied

/-- The unwrapped (flat) future of the scenario, viewing the flat shared
state. -/
def UnwrapWorld.flatFuture {α : Type} (w : UnwrapWorld α) : Future α :=
  ⟨some { retrieved := true, state := w.flat }⟩

/-- The observable state of the mutex bound into a Concurrent object,
with the three modes of the FakeMutex used by the LockedData tests:
UNLOCKED, LOCKED (exclusive) and SHARED. -/
inductive LockState where
  | UNLOCKED
  | LOCKED
  | SHARED
  deriving DecidableEq

/-- A mutex model in the style of the FakeMutex of the LockedData tests:
the current lock_state, the trace of acquisitions (each entry the mode
acquired), the number of releases, whether the mutex policy has a shared
(reader) mode, and fault switches making the lock or unlock operation
throw, to exercise the error paths of the spec. -/
structure FakeMutex where
  lock_state : LockState
  acquireTrace : List LockState
  unlockCount : Nat
  supportsShared : Bool
  failOnLock : Bool
  failOnUnlock : Bool
  deriving DecidableEq

/-- Modelled from the spec: acquiring the mutex of a Concurrent object —
a read-only (const) access path acquires the shared mode when the mutex
policy supports one and falls back to the exclusive mode otherwise; a
mutating access path always acquires the exclusive mode.  A throwing
lock operation propagates its exception with the mutex untouched. -/
def lockModeFor (m : FakeMutex) (isConst : Bool) : LockState :=
  if isConst && m.supportsShared then .SHARED else .LOCKED

/-- Modelled from the spec: the acquisition itself — records the mode in
the trace and sets the lock_state; a throwing lock operation propagates
its exception with the mutex untouched. -/
def lockMutex (m : FakeMutex) (isConst : Bool) : Except Exc FakeMutex :=
  if m.failOnLock then .error (.logicError 1)
  else
    .ok { m with lock_state := lockModeFor m isConst,
                 acquireTrace := m.acquireTrace ++ [lockModeFor m isConst] }

/-- Modelled from the spec: releasing the mutex; a throwing unlock
operation propagates its exception (the callers below turn it into
process termination, as the spec requires). -/
def unlockMutex (m : FakeMutex) : Except Exc FakeMutex :=
  if m.failOnUnlock then .error (.logicError 2)
  else .ok { m with lock_state := .UNLOCKED,
                    unlockCount := m.unlockCount + 1 }

/-- The sharp::Concurrent wrapper: the protected datum and its mutex
(Concurrent.hpp declares exactly these two data members). -/
structure Concurrent (α : Type) where
  datum : α
  mtx : FakeMutex
  deriving DecidableEq

/-- The RAII proxy returned by Concurrent::lock (UniqueLockedProxy /
ConstUniqueLockedProxy of Concurrent.hpp): the datum view, nulled once
the lock is released so later access fails loudly, and the flag saying
the proxy still owns the lock. -/
structure UniqueLockedProxy (α : Type) where
  datum : Option α
  owns : Bool
  deriving DecidableEq

/-- Modelled from the spec: Concurrent::lock acquires the mutex in the
mode selected by the constness of the handle and returns a proxy already
holding the lock, with no side effect beyond the acquisition; an
exception from the mutex lock operation propagates with no proxy
constructed. -/
def Concurrent.lock {α : Type} (c : Concurrent α) (isConst : Bool) :
    Except Exc (UniqueLockedProxy α × Concurrent α) :=
  match lockMutex c.mtx isConst with
  | .error e => .error e
  | .ok m2 =>
    .ok ({ datum := some c.datum, owns := true }, { c with mtx := m2 })

/-- What a manual UniqueLockedProxy::unlock call or the proxy destructor
can do: continue with the new proxy/mutex pair, or terminate the process
when the underlying unlock operation throws (the proxy destructor and
unlock are effectively noexcept). -/
inductive UnlockOutcome (α : Type) where
  | ok (p : UniqueLockedProxy α) (m : FakeMutex)
  | terminated
  deriving DecidableEq

/-- Modelled from the spec: the manual unlock of a locked proxy —
releases the mutex and nulls the datum pointer the first time, and is a
safe no-op when the proxy no longer owns the lock; a throwing mutex
unlock is fatal. -/
def UniqueLockedProxy.unlock {α : Type} (p : UniqueLockedProxy α)
    (m : FakeMutex) : UnlockOutcome α :=
  if p.owns then
    match unlockMutex m with
    | .ok m2 => .ok { datum := none, owns := false } m2
    | .error _ => .terminated
  else .ok p m

/-- What destroying a proxy can do: release the mutex (or leave it alone
when already released), or terminate when the unlock operation throws. -/
inductive DestroyOutcome where
  | released (m : FakeMutex)
  | terminated
  deriving DecidableEq

/-- Modelled from the spec: the proxy destructor releases the lock when
it is still owned and does nothing otherwise; a throwing mutex unlock in
the destructor is fatal. -/
def UniqueLockedProxy.destroy {α : Type} (p : UniqueLockedProxy α)
    (m : FakeMutex) : DestroyOutcome :=
  if p.owns then
    match unlockMutex m with
    | .ok m2 => .released m2
    | .error _ => .terminated
  else .released m

/-- What a call to Concurrent::synchronized can do: return the value of
the callable, propagate an exception (from the callable or from the
mutex lock operation), or terminate the process when the mutex unlock
operation throws. -/
inductive SyncResult (β : Type) where
  | ok (v : β)
  | threw (e : Exc)
  | terminated
  deriving DecidableEq

/-- Modelled from the spec: Concurrent::synchronized acquires the mutex
in the mode selected by the constness of the handle, invokes the
callable on the protected datum, and releases the mutex before
returning or before letting an exception from the callable propagate; an
exception from the mutex lock operation propagates with nothing else
done, and an exception from the mutex unlock operation terminates the
process.  The callable may update the datum and may throw. -/
def Concurrent.synchronized {α β : Type} (c : Concurrent α)
    (isConst : Bool) (f : α → Except Exc (β × α)) :
    SyncResult β × Concurrent α :=
  match lockMutex c.mtx isConst with
  | .error e => (.threw e, c)
  | .ok m2 =>
    match f c.datum with
    | .ok (r, d2) =>
      match unlockMutex m2 with
      | .ok m3 => (.ok r, { datum := d2, mtx := m3 })
      | .error _ => (.terminated, { datum := d2, mtx := m2 })
    | .error e =>
      match unlockMutex m2 with
      | .ok m3 => (.threw e, { c with mtx := m3 })
      | .error _ => (.terminated, { c with mtx := m2 })

/-- A mutex instance for concrete scenarios: unlocked, shared mode
available, no faults. -/
def testMutex : FakeMutex :=
  { lock_state := .UNLOCKED, acquireTrace := [], unlockCount := 0,
    supportsShared := true, failOnLock := false, failOnUnlock := false }

/-- Helper: a set_value or set_exception call on a shared state whose
state is already terminal fails with promise_already_satisfied. -/
theorem applySet_fulfilled {α : Type} (s : FutureImpl α) (op : SetOp α)
    (h : s.state ≠ FutureState.NotFulfilled) :
    s.applySet op = .error .promise_already_satisfied := by
  obtain ⟨r, st⟩ := s
  cases op <;> cases st <;> first | exact absurd rfl h | rfl

/-- Helper: a whole sequence of set calls on an already-fulfilled shared
state fails call by call with promise_already_satisfied and leaves the
state unchanged. -/
theorem runSetOps_fulfilled {α : Type} (s : FutureImpl α)
    (ops : List (SetOp α)) (h : s.state ≠ FutureState.NotFulfilled) :
    runSetOps s ops =
      (s, ops.map fun _ => .error .promise_already_satisfied) := by
  induction ops with
  | nil => rfl
  | cons op ops ih =>
    simp [runSetOps, applySet_fulfilled s op h, ih]

/-- C1: on a shared state still Empty, the first set_value/set_exception
call of any sequence succeeds and moves the state out of Empty, and
every subsequent call fails with promise_already_satisfied, leaving the
stored payload and the state unchanged. -/
theorem only_first_set_succeeds {α : Type} (s : FutureImpl α)
    (op : SetOp α) (ops : List (SetOp α))
    (h : s.state = FutureState.NotFulfilled) :
    ∃ s2 : FutureImpl α,
      s.applySet op = .ok s2 ∧
      s2.state ≠ FutureState.NotFulfilled ∧
      runSetOps s (op :: ops) =
        (s2, .ok () :: ops.map fun _ =>
          .error FutureErrorCode.promise_already_satisfied) := by
  obtain ⟨r, st⟩ := s
  have h2 : st = FutureState.NotFulfilled := h
  subst h2
  cases op with
  | value v =>
    refine ⟨⟨r, .ContainsValue v⟩, rfl,
      fun hc => FutureState.noConfusion hc, ?_⟩
    have hrest := runSetOps_fulfilled
      (⟨r, FutureState.ContainsValue v⟩ : FutureImpl α) ops
      (fun hc => FutureState.noConfusion hc)
    simp [runSetOps, FutureImpl.applySet, FutureImpl.set_value, hrest]
  | exc e =>
    refine ⟨⟨r, .ContainsException e⟩, rfl,
      fun hc => FutureState.noConfusion hc, ?_⟩
    have hrest := runSetOps_fulfilled
      (⟨r, FutureState.ContainsException e⟩ : FutureImpl α) ops
      (fun hc => FutureState.noConfusion hc)
    simp [runSetOps, FutureImpl.applySet, FutureImpl.set_exception, hrest]

/-- Witness for C1 at a concrete input: a fresh shared state, a
set_value 5 followed by a set_value 6 and a set_exception. -/
theorem only_first_set_succeeds_witness :
    (FutureImpl.init Nat).state = FutureState.NotFulfilled ∧
    ∃ s2 : FutureImpl Nat,
      (FutureImpl.init Nat).applySet (.value 5) = .ok s2 ∧
      s2.state ≠ FutureState.NotFulfilled ∧
      runSetOps (FutureImpl.init Nat)
          (.value 5 :: [.value 6, .exc (.logicError 0)]) =
        (s2, .ok () :: [SetOp.value 6, SetOp.exc (.logicError 0)].map
          fun _ => .error FutureErrorCode.promise_already_satisfied) :=
  ⟨rfl, only_first_set_succeeds (FutureImpl.init Nat) (.value 5)
    [.value 6, .exc (.logicError 0)] rfl⟩

/-- C2: destroying a Promise whose shared state is still Empty forces
the state to ContainsException carrying broken_promise, and a get on a
Future referencing that state throws the broken_promise error while a
wait returns instead of blocking forever. -/
theorem broken_promise_on_destroy {α : Type} (impl : FutureImpl α)
    (h : impl.state = FutureState.NotFulfilled) :
    (promiseDestroy impl).state =
      FutureState.ContainsException (.futureError .broken_promise) ∧
    (Future.get (⟨some (promiseDestroy impl)⟩ : Future α)).1 =
      .threw (.futureError .broken_promise) ∧
    Future.wait (⟨some (promiseDestroy impl)⟩ : Future α) = .ready := by
  obtain ⟨r, st⟩ := impl
  have h2 : st = FutureState.NotFulfilled := h
  subst h2
  exact ⟨rfl, rfl, rfl⟩

/-- Witness for C2 at a concrete input: a fresh shared state. -/
theorem broken_promise_on_destroy_witness :
    (FutureImpl.init Nat).state = FutureState.NotFulfilled ∧
    ((promiseDestroy (FutureImpl.init Nat)).state =
        FutureState.ContainsException (.futureError .broken_promise) ∧
      (Future.get (⟨some (promiseDestroy (FutureImpl.init Nat))⟩ :
          Future Nat)).1 = .threw (.futureError .broken_promise) ∧
      Future.wait (⟨some (promiseDestroy (FutureImpl.init Nat))⟩ :
          Future Nat) = .ready) :=
  ⟨rfl, broken_promise_on_destroy (FutureImpl.init Nat) rfl⟩

/-- C3: a Future without a shared state fails on get and wait with
no_state, and after a successful get on a fulfilled state the future is
consumed, so a second get (and a wait) fails with no_state. -/
theorem get_consumes_then_no_state {α : Type} (v : α)
    (impl : FutureImpl α) (h : impl.state = FutureState.NotFulfilled) :
    (Future.get (⟨none⟩ : Future α)).1 = .threw (.futureError .no_state) ∧
    Future.wait (⟨none⟩ : Future α) = .failed .no_state ∧
    ∃ impl2 : FutureImpl α,
      impl.set_value v = .ok impl2 ∧
      (Future.get (⟨some impl2⟩ : Future α)).1 = .ok v ∧
      (Future.get (⟨some impl2⟩ : Future α)).2 = (⟨none⟩ : Future α) ∧
      (Future.get (Future.get (⟨some impl2⟩ : Future α)).2).1 =
        .threw (.futureError .no_state) ∧
      Future.wait (Future.get (⟨some impl2⟩ : Future α)).2 =
        .failed .no_state := by
  obtain ⟨r, st⟩ := impl
  have h2 : st = FutureState.NotFulfilled := h
  subst h2
  exact ⟨rfl, rfl, ⟨r, .ContainsValue v⟩, rfl, rfl, rfl, rfl, rfl⟩

/-- Witness for C3 at a concrete input: a fresh shared state fulfilled
with 1. -/
theorem get_consumes_then_no_state_witness :
    (FutureImpl.init Nat).state = FutureState.NotFulfilled ∧
    ((Future.get (⟨none⟩ : Future Nat)).1 =
        .threw (.futureError .no_state) ∧
      Future.wait (⟨none⟩ : Future Nat) = .failed .no_state ∧
      ∃ impl2 : FutureImpl Nat,
        (FutureImpl.init Nat).set_value 1 = .ok impl2 ∧
        (Future.get (⟨some impl2⟩ : Future Nat)).1 = .ok 1 ∧
        (Future.get (⟨some impl2⟩ : Future Nat)).2 =
          (⟨none⟩ : Future Nat) ∧
        (Future.get (Future.get (⟨some impl2⟩ : Future Nat)).2).1 =
          .threw (.futureError .no_state) ∧
        Future.wait (Future.get (⟨some impl2⟩ : Future Nat)).2 =
          .failed .no_state) :=
  ⟨rfl, get_consumes_then_no_state 1 (FutureImpl.init Nat) rfl⟩

/-- C5: registering a continuation on an unfulfilled future and then
fulfilling the base state with a value makes the chained future's get
yield exactly the continuation applied to the now-ready base future — a
returned value surfaces as the value, an exception thrown inside the
continuation is stored and surfaces as the thrown exception. -/
theorem then_composition {α β : Type} (impl : FutureImpl α)
    (f : Future α → Except Exc β) (v : α)
    (h : impl.state = FutureState.NotFulfilled) :
    ∃ t t2 : ThenChain α β,
      thenRegister (⟨some impl⟩ : Future α) f = .ok t ∧
      t.set_value v = .ok t2 ∧
      t2.base.state = FutureState.ContainsValue v ∧
      (Future.get t2.chainedFuture).1 =
        outcomeOfExcept (f (⟨some t2.base⟩ : Future α)) := by
  obtain ⟨r, st⟩ := impl
  have h2 : st = FutureState.NotFulfilled := h
  subst h2
  refine ⟨{ base := ⟨r, .NotFulfilled⟩, contState := .NotFulfilled,
            callback := some (contForward f) },
          { base := ⟨r, .ContainsValue v⟩,
            contState := contForward f ⟨r, .ContainsValue v⟩,
            callback := none }, rfl, rfl, rfl, ?_⟩
  cases hf : f (⟨some ⟨r, FutureState.ContainsValue v⟩⟩ : Future α) with
  | ok w =>
    simp [ThenChain.chainedFuture, Future.get, contForward,
      outcomeOfExcept, hf]
  | error e =>
    simp [ThenChain.chainedFuture, Future.get, contForward,
      outcomeOfExcept, hf]

/-- The continuation of the FutureThenBasicTest scenario: it gets the
base future's value and multiplies it by 5. -/
def thenTestCont : Future Nat → Except Exc Nat := fun fut =>
  match (Future.get fut).1 with
  | .ok n => .ok (n * 5)
  | .threw e => .error e
  | .blocks => .error (.logicError 0)

/-- Witness for C5 at a concrete input: a fresh shared state, the
times-five continuation, and the value 10. -/
theorem then_composition_witness :
    (FutureImpl.init Nat).state = FutureState.NotFulfilled ∧
    ∃ t t2 : ThenChain Nat Nat,
      thenRegister (⟨some (FutureImpl.init Nat)⟩ : Future Nat)
        thenTestCont = .ok t ∧
      t.set_value 10 = .ok t2 ∧
      t2.base.state = FutureState.ContainsValue 10 ∧
      (Future.get t2.chainedFuture).1 =
        outcomeOfExcept (thenTestCont (⟨some t2.base⟩ : Future Nat)) :=
  ⟨rfl, then_composition (FutureImpl.init Nat) thenTestCont 10 rfl⟩

/-- C6: unwrap-constructing from a valid but unfulfilled outer future
yields a flat future that still blocks after the outer promise is
fulfilled with a valid inner future, and resolves to x exactly once the
inner promise is also fulfilled with x. -/
theorem unwrap_resolves_after_both {α : Type} (x : α) :
    ∃ w0 w1 w2 : UnwrapWorld α,
      unwrapConstruct true FutureState.NotFulfilled
        (FutureState.NotFulfilled (α := α)) = .ok w0 ∧
      (Future.get w0.flatFuture).1 = .blocks ∧
      w0.setOuter true = .ok w1 ∧
      (Future.get w1.flatFuture).1 = .blocks ∧
      w1.setInner x = .ok w2 ∧
      (Future.get w2.flatFuture).1 = .ok x :=
  ⟨⟨.NotFulfilled, .NotFulfilled, .NotFulfilled, false⟩,
   ⟨.ContainsValue true, .NotFulfilled, .NotFulfilled, true⟩,
   ⟨.ContainsValue true, .ContainsValue x, .ContainsValue x, false⟩,
   rfl, rfl, rfl, rfl, rfl, rfl⟩

/-- C8: on a shared state whose retrieved flag is clear, the first
get_future retrieval succeeds and sets the flag without touching the
state; every retrieval from a state whose flag is set fails with
future_already_retrieved, and a retrieval can only succeed from a clear
flag (so the flag is set at most once). -/
theorem retrieved_flag_one_shot {α : Type} (impl : FutureImpl α)
    (h : impl.retrieved = false) :
    ∃ impl2 : FutureImpl α,
      impl.test_and_set_retrieved_flag = .ok impl2 ∧
      impl2.retrieved = true ∧
      impl2.state = impl.state ∧
      (∀ s : FutureImpl α, s.retrieved = true →
        s.test_and_set_retrieved_flag =
          .error .future_already_retrieved) ∧
      (∀ s s2 : FutureImpl α, s.test_and_set_retrieved_flag = .ok s2 →
        s.retrieved = false ∧ s2.retrieved = true) := by
  obtain ⟨r, st⟩ := impl
  have h2 : r = false := h
  subst h2
  refine ⟨⟨true, st⟩, rfl, rfl, rfl, ?_, ?_⟩
  · intro s hs
    obtain ⟨rs, sts⟩ := s
    have h3 : rs = true := hs
    subst h3
    rfl
  · intro s s2 hok
    obtain ⟨rs, sts⟩ := s
    cases rs with
    | true => exact absurd hok (by simp [FutureImpl.test_and_set_retrieved_flag])
    | false =>
      refine ⟨rfl, ?_⟩
      have h4 : Except.ok (ε := FutureErrorCode)
          (⟨true, sts⟩ : FutureImpl α) = .ok s2 := hok
      have h5 : (⟨true, sts⟩ : FutureImpl α) = s2 := by
        cases h4; rfl
      rw [← h5]

/-- Witness for C8 at a concrete input: a fresh shared state. -/
theorem retrieved_flag_one_shot_witness :
    (FutureImpl.init Nat).retrieved = false ∧
    ∃ impl2 : FutureImpl Nat,
      (FutureImpl.init Nat).test_and_set_retrieved_flag = .ok impl2 ∧
      impl2.retrieved = true ∧
      impl2.state = (FutureImpl.init Nat).state ∧
      (∀ s : FutureImpl Nat, s.retrieved = true →
        s.test_and_set_retrieved_flag =
          .error .future_already_retrieved) ∧
      (∀ s s2 : FutureImpl Nat, s.test_and_set_retrieved_flag = .ok s2 →
        s.retrieved = false ∧ s2.retrieved = true) :=
  ⟨rfl, retrieved_flag_one_shot (FutureImpl.init Nat) rfl⟩

/-- C10: moving out of a valid future transfers the shared state — the
destination is valid and holds the source's state, the source is left
invalid, and state-requiring operations on the source now fail with
no_state. -/
theorem future_move_transfers_state {α : Type} (f : Future α)
    (h : f.valid = true) :
    (f.moveFrom).1.valid = true ∧
    (f.moveFrom).2.valid = false ∧
    (f.moveFrom).1.shared_state = f.shared_state ∧
    (Future.get (f.moveFrom).2).1 = .threw (.futureError .no_state) ∧
    Future.wait (f.moveFrom).2 = .failed .no_state := by
  obtain ⟨ss⟩ := f
  cases ss with
  | none => exact absurd h (by simp [Future.valid])
  | some impl => exact ⟨rfl, rfl, rfl, rfl, rfl⟩

/-- Witness for C10 at a concrete input: a future holding a fresh shared
state. -/
theorem future_move_transfers_state_witness :
    (⟨some (FutureImpl.init Nat)⟩ : Future Nat).valid = true ∧
    (((⟨some (FutureImpl.init Nat)⟩ : Future Nat).moveFrom).1.valid
        = true ∧
      ((⟨some (FutureImpl.init Nat)⟩ : Future Nat).moveFrom).2.valid
        = false ∧
      ((⟨some (FutureImpl.init Nat)⟩ : Future Nat).moveFrom).1.shared_state
        = (⟨some (FutureImpl.init Nat)⟩ : Future Nat).shared_state ∧
      (Future.get ((⟨some (FutureImpl.init Nat)⟩ :
          Future Nat).moveFrom).2).1 = .threw (.futureError .no_state) ∧
      Future.wait ((⟨some (FutureImpl.init Nat)⟩ :
          Future Nat).moveFrom).2 = .failed .no_state) :=
  ⟨rfl, future_move_transfers_state (⟨some (FutureImpl.init Nat)⟩ :
    Future Nat) rfl⟩

/-- A Concurrent instance for concrete scenarios: datum 0, healthy
mutex with a shared mode. -/
def testConcurrent : Concurrent Nat := ⟨0, testMutex⟩

/-- A Concurrent instance whose mutex throws from its lock operation. -/
def failLockConcurrent : Concurrent Nat :=
  ⟨0, { testMutex with failOnLock := true }⟩

/-- A Concurrent instance whose mutex throws from its unlock
operation. -/
def failUnlockConcurrent : Concurrent Nat :=
  ⟨0, { testMutex with failOnUnlock := true }⟩

/-- C4: Concurrent::lock acquires the shared mode exactly for a
read-only handle on a mutex with a shared mode and the exclusive mode in
every other case, has no side effect beyond the acquisition (datum
untouched, no release recorded), and the lock is released when the proxy
is destroyed; the one-shot synchronized path acquires the same mode and
ends with the mutex released. -/
theorem lock_mode_and_release {α : Type} (c : Concurrent α)
    (isConst : Bool)
    (h1 : c.mtx.failOnLock = false) (h2 : c.mtx.failOnUnlock = false) :
    ∃ (p : UniqueLockedProxy α) (c2 : Concurrent α),
      c.lock isConst = .ok (p, c2) ∧
      c2.mtx.lock_state = lockModeFor c.mtx isConst ∧
      (isConst = true → c.mtx.supportsShared = true →
        c2.mtx.lock_state = LockState.SHARED) ∧
      (isConst = true → c.mtx.supportsShared = false →
        c2.mtx.lock_state = LockState.LOCKED) ∧
      (isConst = false → c2.mtx.lock_state = LockState.LOCKED) ∧
      c2.datum = c.datum ∧
      p.datum = some c.datum ∧ p.owns = true ∧
      c2.mtx.acquireTrace =
        c.mtx.acquireTrace ++ [lockModeFor c.mtx isConst] ∧
      c2.mtx.unlockCount = c.mtx.unlockCount ∧
      (∃ m3 : FakeMutex, p.destroy c2.mtx = .released m3 ∧
        m3.lock_state = LockState.UNLOCKED ∧
        m3.unlockCount = c.mtx.unlockCount + 1) ∧
      (∀ g : α → α,
        ((c.synchronized isConst fun a =>
            (.ok ((), g a) : Except Exc (Unit × α))).2).mtx.lock_state
          = LockState.UNLOCKED ∧
        ((c.synchronized isConst fun a =>
            (.ok ((), g a) : Except Exc (Unit × α))).2).mtx.acquireTrace
          = c.mtx.acquireTrace ++ [lockModeFor c.mtx isConst]) := by
  obtain ⟨d, ls, tr, uc, ss, fl, fu⟩ := c
  have h3 : fl = false := h1
  have h4 : fu = false := h2
  subst h3
  subst h4
  refine ⟨⟨some d, true⟩,
    ⟨d, { lock_state := lockModeFor ⟨ls, tr, uc, ss, false, false⟩ isConst,
          acquireTrace :=
            tr ++ [lockModeFor ⟨ls, tr, uc, ss, false, false⟩ isConst],
          unlockCount := uc, supportsShared := ss,
          failOnLock := false, failOnUnlock := false }⟩,
    rfl, rfl, ?_, ?_, ?_, rfl, rfl, rfl, rfl, rfl,
    ⟨{ lock_state := .UNLOCKED,
       acquireTrace :=
         tr ++ [lockModeFor ⟨ls, tr, uc, ss, false, false⟩ isConst],
       unlockCount := uc + 1, supportsShared := ss,
       failOnLock := false, failOnUnlock := false }, rfl, rfl, rfl⟩,
    fun _ => ⟨rfl, rfl⟩⟩
  · intro ha hb
    subst ha
    have hb2 : ss = true := hb
    subst hb2
    rfl
  · intro ha hb
    subst ha
    have hb2 : ss = false := hb
    subst hb2
    rfl
  · intro ha
    subst ha
    rfl

/-- Witness for C4 at a concrete input: the test Concurrent instance
locked through a read-only handle. -/
theorem lock_mode_and_release_witness :
    testConcurrent.mtx.failOnLock = false ∧
    testConcurrent.mtx.failOnUnlock = false ∧
    ∃ (p : UniqueLockedProxy Nat) (c2 : Concurrent Nat),
      testConcurrent.lock true = .ok (p, c2) ∧
      c2.mtx.lock_state = lockModeFor testConcurrent.mtx true ∧
      (true = true → testConcurrent.mtx.supportsShared = true →
        c2.mtx.lock_state = LockState.SHARED) ∧
      (true = true → testConcurrent.mtx.supportsShared = false →
        c2.mtx.lock_state = LockState.LOCKED) ∧
      (true = false → c2.mtx.lock_state = LockState.LOCKED) ∧
      c2.datum = testConcurrent.datum ∧
      p.datum = some testConcurrent.datum ∧ p.owns = true ∧
      c2.mtx.acquireTrace = testConcurrent.mtx.acquireTrace ++
        [lockModeFor testConcurrent.mtx true] ∧
      c2.mtx.unlockCount = testConcurrent.mtx.unlockCount ∧
      (∃ m3 : FakeMutex, p.destroy c2.mtx = .released m3 ∧
        m3.lock_state = LockState.UNLOCKED ∧
        m3.unlockCount = testConcurrent.mtx.unlockCount + 1) ∧
      (∀ g : Nat → Nat,
        ((testConcurrent.synchronized true fun a =>
            (.ok ((), g a) : Except Exc (Unit × Nat))).2).mtx.lock_state
          = LockState.UNLOCKED ∧
        ((testConcurrent.synchronized true fun a =>
            (.ok ((), g a) : Except Exc (Unit × Nat))).2).mtx.acquireTrace
          = testConcurrent.mtx.acquireTrace ++
            [lockModeFor testConcurrent.mtx true]) :=
  ⟨rfl, rfl, lock_mode_and_release testConcurrent true rfl rfl⟩

/-- C7: if the callable throws, the mutex is released before the
exception reaches the caller; if the mutex lock operation throws, the
exception propagates with the Concurrent object untouched and no proxy
constructed; if the mutex unlock operation throws, the process is
terminated. -/
theorem synchronized_error_paths {α β : Type} (c : Concurrent α)
    (isConst : Bool) :
    (∀ e : Exc, c.mtx.failOnLock = false → c.mtx.failOnUnlock = false →
      ∃ c2 : Concurrent α,
        c.synchronized isConst
          (fun _ => (.error e : Except Exc (β × α))) = (.threw e, c2) ∧
        c2.mtx.lock_state = LockState.UNLOCKED ∧
        c2.mtx.unlockCount = c.mtx.unlockCount + 1 ∧
        c2.datum = c.datum) ∧
    (c.mtx.failOnLock = true →
      ∀ f : α → Except Exc (β × α),
        c.synchronized isConst f = (.threw (.logicError 1), c)) ∧
    (c.mtx.failOnLock = false → c.mtx.failOnUnlock = true →
      ∀ f : α → Except Exc (β × α),
        (c.synchronized isConst f).1 = SyncResult.terminated) := by
  obtain ⟨d, ls, tr, uc, ss, fl, fu⟩ := c
  refine ⟨?_, ?_, ?_⟩
  · intro e hfl hfu
    have h3 : fl = false := hfl
    have h4 : fu = false := hfu
    subst h3
    subst h4
    exact ⟨⟨d, { lock_state := .UNLOCKED,
                 acquireTrace := tr ++
                   [lockModeFor ⟨ls, tr, uc, ss, false, false⟩ isConst],
                 unlockCount := uc + 1, supportsShared := ss,
                 failOnLock := false, failOnUnlock := false }⟩,
      rfl, rfl, rfl, rfl⟩
  · intro hfl f
    have h3 : fl = true := hfl
    subst h3
    rfl
  · intro hfl hfu f
    have h3 : fl = false := hfl
    have h4 : fu = true := hfu
    subst h3
    subst h4
    cases hf : f d with
    | ok rd => simp [Concurrent.synchronized, lockMutex, unlockMutex, hf]
    | error e => simp [Concurrent.synchronized, lockMutex, unlockMutex, hf]

/-- Witness for C7 at concrete inputs: a throwing callable on the
healthy instance, any callable on the lock-throwing instance, and a
normal callable on the unlock-throwing instance. -/
theorem synchronized_error_paths_witness :
    testConcurrent.mtx.failOnLock = false ∧
    testConcurrent.mtx.failOnUnlock = false ∧
    failLockConcurrent.mtx.failOnLock = true ∧
    failUnlockConcurrent.mtx.failOnLock = false ∧
    failUnlockConcurrent.mtx.failOnUnlock = true ∧
    (∃ c2 : Concurrent Nat,
      testConcurrent.synchronized true
        (fun _ => (.error (.logicError 7) : Except Exc (Nat × Nat))) =
        (.threw (.logicError 7), c2) ∧
      c2.mtx.lock_state = LockState.UNLOCKED ∧
      c2.mtx.unlockCount = testConcurrent.mtx.unlockCount + 1 ∧
      c2.datum = testConcurrent.datum) ∧
    failLockConcurrent.synchronized true
      (fun a => (.ok (a, a) : Except Exc (Nat × Nat))) =
      (.threw (.logicError 1), failLockConcurrent) ∧
    (failUnlockConcurrent.synchronized true
      (fun a => (.ok (a, a) : Except Exc (Nat × Nat)))).1 =
      SyncResult.terminated :=
  ⟨rfl, rfl, rfl, rfl, rfl,
   (synchronized_error_paths testConcurrent true).1 (.logicError 7) rfl rfl,
   (synchronized_error_paths failLockConcurrent true).2.1 rfl _,
   (synchronized_error_paths failUnlockConcurrent true).2.2 rfl rfl _⟩

/-- C9: on a proxy obtained from Concurrent::lock, the first unlock call
releases the mutex exactly once (one release recorded, state UNLOCKED)
and nulls the datum view; a second unlock call on the same proxy is a
no-op leaving proxy and mutex unchanged, and destroying the proxy
afterwards releases nothing further. -/
theorem unlock_idempotent {α : Type} (c : Concurrent α) (isConst : Bool)
    (h1 : c.mtx.failOnLock = false) (h2 : c.mtx.failOnUnlock = false) :
    ∃ (p : UniqueLockedProxy α) (c2 : Concurrent α)
      (p2 : UniqueLockedProxy α) (m2 : FakeMutex),
      c.lock isConst = .ok (p, c2) ∧
      p.unlock c2.mtx = .ok p2 m2 ∧
      m2.lock_state = LockState.UNLOCKED ∧
      m2.unlockCount = c.mtx.unlockCount + 1 ∧
      p2.owns = false ∧ p2.datum = none ∧
      p2.unlock m2 = .ok p2 m2 ∧
      p2.destroy m2 = .released m2 := by
  obtain ⟨d, ls, tr, uc, ss, fl, fu⟩ := c
  have h3 : fl = false := h1
  have h4 : fu = false := h2
  subst h3
  subst h4
  exact ⟨⟨some d, true⟩,
    ⟨d, { lock_state := lockModeFor ⟨ls, tr, uc, ss, false, false⟩ isConst,
          acquireTrace :=
            tr ++ [lockModeFor ⟨ls, tr, uc, ss, false, false⟩ isConst],
          unlockCount := uc, supportsShared := ss,
          failOnLock := false, failOnUnlock := false }⟩,
    ⟨none, false⟩,
    { lock_state := .UNLOCKED,
      acquireTrace :=
        tr ++ [lockModeFor ⟨ls, tr, uc, ss, false, false⟩ isConst],
      unlockCount := uc + 1, supportsShared := ss,
      failOnLock := false, failOnUnlock := false },
    rfl, rfl, rfl, rfl, rfl, rfl, rfl, rfl⟩

/-- Witness for C9 at a concrete input: the test Concurrent instance
locked through a mutating handle, unlocked twice. -/
theorem unlock_idempotent_witness :
    testConcurrent.mtx.failOnLock = false ∧
    testConcurrent.mtx.failOnUnlock = false ∧
    ∃ (p : UniqueLockedProxy Nat) (c2 : Concurrent Nat)
      (p2 : UniqueLockedProxy Nat) (m2 : FakeMutex),
      testConcurrent.lock false = .ok (p, c2) ∧
      p.unlock c2.mtx = .ok p2 m2 ∧
      m2.lock_state = LockState.UNLOCKED ∧
      m2.unlockCount = testConcurrent.mtx.unlockCount + 1 ∧
      p2.owns = false ∧ p2.datum = none ∧
      p2.unlock m2 = .ok p2 m2 ∧
      p2.destroy m2 = .released m2 :=
  ⟨rfl, rfl, unlock_idempotent testConcurrent false rfl rfl⟩

end Sharp
